import Mathlib

/-!
Verification development for `ts_semantic_feature_detector`,
file `src/ts_semantic_feature_detector/features_3d/scene.py`.

The file embeds the class `AgriculturalScene` and its three state-changing
operations (`downsample`, `get_transformation_matrix`,
`add_extrinsics_information`, plus the helper
`_apply_extrinsics_to_3D_vector`) as pure Lean functions over real numbers.
Python floats are modelled by `ℝ`; numpy 4x4 and 3x3 arrays by `Matrix (Fin 4)
(Fin 4) ℝ` and `Matrix (Fin 3) (Fin 3) ℝ`; numpy 3-vectors by `Fin 3 → ℝ`;
in-place mutation of the scene by a function returning the updated scene.

The collaborator classes `GroundPlane`, `CornCrop` and `CornCropGroup`
(files `features_3d/ground_plane.py` and `features_3d/crop.py`) are not part
of the sources: `scene.py` only stores into their fields and calls their
methods. Their data fields are embedded as structures (exactly the fields
`scene.py` reads or writes), and their methods are carried as opaque function
parameters in a `GeometryPrims` record, so every theorem about `scene.py`
holds for an arbitrary behaviour of those collaborators, except where a
definition is explicitly marked as modelled from the spec.
-/

namespace TsScene

noncomputable section

open Real Matrix

/-- A 3D point or vector, as a numpy array of three floats. -/
abbrev Point3 := Fin 3 → ℝ

/-- A 4x4 homogeneous matrix, as returned by `get_transformation_matrix`. -/
abbrev Mat4 := Matrix (Fin 4) (Fin 4) ℝ

/-- A 3x3 rotation block. -/
abbrev Mat3 := Matrix (Fin 3) (Fin 3) ℝ

/-- Data fields of `features_3d.ground_plane.GroundPlane` that `scene.py`
reads or writes: the point set `ps_3d` and the four derived fields
(`average_point`, `ground_vectors`, `normal_vector`, `coeficients`). -/
structure GroundPlane where
  ps_3d : List Point3
  average_point : Point3
  ground_vectors : Point3 × Point3
  normal_vector : Point3
  coeficients : Fin 4 → ℝ

/-- Data fields of `features_3d.crop.CornCrop` that `scene.py` reads or
writes. -/
structure CornCrop where
  ps_3d : List Point3
  average_point : Point3
  crop_vector : Point3
  crop_vector_angles : Fin 3 → ℝ
  emerging_point : Point3

/-- Data fields of `features_3d.crop.CornCropGroup` that `scene.py` uses:
the ordered list of crops. -/
structure CornCropGroup where
  crops : List CornCrop

/-- The `AgriculturalScene` state: `index`, the two owned collaborators and
the optional cached `extrinsics` matrix (`None` in Python is `none`). -/
structure AgriculturalScene where
  index : ℤ
  crop_group : CornCropGroup
  ground_plane : GroundPlane
  extrinsics : Option Mat4

/-- The collaborator methods called by `scene.py` but defined outside the
sources (`ground_plane.py`, `crop.py`, and the voxel-grid reduction they
delegate to). They are carried as opaque parameters: theorems about
`scene.py` quantify over them. -/
structure GeometryPrims where
  get_principal_components : List Point3 → Point3 × Point3
  get_plane_coefficients : Point3 → Point3 → Fin 4 → ℝ
  get_principal_component : List Point3 → Point3
  get_vector_angles : Point3 → Fin 3 → ℝ
  find_emerging_point : CornCrop → GroundPlane → Point3
  voxel_downsample : ℝ → List Point3 → List Point3

/-- Componentwise arithmetic mean of a list of points, as
`np.average(ps, axis=0)` (real-division convention: the empty list yields
division by zero, hence `0`, where numpy would yield NaN). -/
def np_average (ps : List Point3) : Point3 :=
  fun i => (ps.map (fun p => p i)).sum / (ps.length : ℝ)

/-- The numpy cross product of two 3-vectors, `np.cross(a, b)`. -/
def np_cross (a b : Point3) : Point3 :=
  ![a 1 * b 2 - a 2 * b 1, a 2 * b 0 - a 0 * b 2, a 0 * b 1 - a 1 * b 0]

/-- Modelled from the spec: `GroundPlane.downsample(voxel_size)`
(`features_3d/ground_plane.py` is not under the sources). Spec section 4.6
and section 1: voxel-grid reduction of the owned point set, delegated to an
external primitive; it touches only `ps_3d` and triggers no recomputation of
the derived fields. -/
def ground_plane_downsample (P : GeometryPrims) (voxel_size : ℝ)
    (gp : GroundPlane) : GroundPlane :=
  { gp with ps_3d := P.voxel_downsample voxel_size gp.ps_3d }

/-- Modelled from the spec: `CornCropGroup.downsample(voxel_size)`
(`features_3d/crop.py` is not under the sources). Spec section 4.6 and
section 6: group-level voxel-grid reduction of each crop's point set,
delegated to the external primitive; it touches only the point sets and
triggers no recomputation of derived fields. -/
def crop_group_downsample (P : GeometryPrims) (voxel_size : ℝ)
    (cg : CornCropGroup) : CornCropGroup :=
  ⟨cg.crops.map (fun c => { c with ps_3d := P.voxel_downsample voxel_size c.ps_3d })⟩

/-- The method `AgriculturalScene.downsample(crop_voxel_size,
ground_plane_voxel_size)` (scene.py lines 43-63): each argument is optional
(`None` = `none`); a provided size is delegated to the corresponding
collaborator, an absent one leaves that component untouched. -/
def downsample (P : GeometryPrims) (scene : AgriculturalScene)
    (crop_voxel_size ground_plane_voxel_size : Option ℝ) : AgriculturalScene :=
  let cg := match crop_voxel_size with
    | some s => crop_group_downsample P s scene.crop_group
    | none => scene.crop_group
  let gp := match ground_plane_voxel_size with
    | some s => ground_plane_downsample P s scene.ground_plane
    | none => scene.ground_plane
  { scene with crop_group := cg, ground_plane := gp }

/-- The homogeneous 4-vector `np.append(vector_3d, 1)`. -/
def np_append_one (v : Point3) : Fin 4 → ℝ :=
  ![v 0, v 1, v 2, 1]

/-- The method `AgriculturalScene._apply_extrinsics_to_3D_vector` (scene.py
lines 65-86): promote the point to homogeneous coordinates, left-multiply by
the extrinsics matrix and divide the first three components by the fourth
(real-division convention: a zero fourth component divides by zero and
yields `0`, where numpy would yield NaN or infinity — the division is not
guarded either way). -/
def apply_extrinsics_to_3D_vector (vector_3d : Point3) (extrinsics : Mat4) :
    Point3 :=
  let ext_hom_3d := extrinsics.mulVec (np_append_one vector_3d)
  fun i => ext_hom_3d i.castSucc / ext_hom_3d 3

/-- The elementary rotation about the z axis built from `rotation[2]`
(scene.py lines 107-110). -/
def R_yaw (a : ℝ) : Mat3 :=
  !![Real.cos a, -Real.sin a, 0;
     Real.sin a, Real.cos a, 0;
     0, 0, 1]

/-- The elementary rotation about the y axis built from `rotation[1]`
(scene.py lines 111-114). -/
def R_pitch (a : ℝ) : Mat3 :=
  !![Real.cos a, 0, Real.sin a;
     0, 1, 0;
     -Real.sin a, 0, Real.cos a]

/-- The elementary rotation about the x axis built from `rotation[0]`
(scene.py lines 115-118). -/
def R_roll (a : ℝ) : Mat3 :=
  !![1, 0, 0;
     0, Real.cos a, -Real.sin a;
     0, Real.sin a, Real.cos a]

/-- Block assembly `np.vstack((np.hstack((R, t)), [0, 0, 0, 1]))` (scene.py
line 121). -/
def hom_matrix (R : Mat3) (t : Point3) : Mat4 :=
  !![R 0 0, R 0 1, R 0 2, t 0;
     R 1 0, R 1 1, R 1 2, t 1;
     R 2 0, R 2 1, R 2 2, t 2;
     0, 0, 0, 1]

/-- The method `AgriculturalScene.get_transformation_matrix(translation,
rotation)` (scene.py lines 88-121). Python list indexing `l[i]` for the
in-range indices 0, 1, 2 is modelled by `List.getD l i 0`; the claims under
verification only concern lists long enough for these reads. -/
def get_transformation_matrix (translation rotation : List ℝ) : Mat4 :=
  let R := R_yaw (rotation.getD 2 0) * R_pitch (rotation.getD 1 0) *
    R_roll (rotation.getD 0 0)
  hom_matrix R ![translation.getD 0 0, translation.getD 1 0, translation.getD 2 0]

/-- The matrix computed by the `self.extrinsics is None` branch of
`add_extrinsics_information` (scene.py lines 154-162):
`t_world_body @ np.linalg.inv(t_camera_body)`. `np.linalg.inv` is modelled
by Mathlib's matrix inverse, which agrees with it on every invertible
matrix; `t_camera_body` is always invertible here (its rotation block is a
product of elementary rotations), see `get_transformation_matrix_isUnit`. -/
def computed_extrinsics (pos_world_body orient_world_body pos_camera_body
    orient_camera_body : List ℝ) : Mat4 :=
  let t_world_body := get_transformation_matrix pos_world_body orient_world_body
  let t_camera_body := get_transformation_matrix pos_camera_body orient_camera_body
  let t_body_camera := t_camera_body⁻¹
  t_world_body * t_body_camera

/-- The extrinsics matrix in effect during a call to
`add_extrinsics_information`: the cached one when present, otherwise the
newly computed one (scene.py line 154). -/
def effective_extrinsics (scene : AgriculturalScene) (pos_world_body
    orient_world_body pos_camera_body orient_camera_body : List ℝ) : Mat4 :=
  match scene.extrinsics with
  | some e => e
  | none => computed_extrinsics pos_world_body orient_world_body
      pos_camera_body orient_camera_body

/-- Pointwise transformation of a point list by the extrinsics matrix, as
the loops at scene.py lines 165-169 and 189-193. -/
def transform_points (e : Mat4) (ps : List Point3) : List Point3 :=
  ps.map (fun p => apply_extrinsics_to_3D_vector p e)

/-- The ground-plane update of `add_extrinsics_information` (scene.py lines
164-185): transform every point in place, then recompute `average_point`,
`ground_vectors`, `normal_vector` and `coeficients`, in this order, each
from the fields just written. -/
def rederive_ground_plane (P : GeometryPrims) (e : Mat4) (gp : GroundPlane) :
    GroundPlane :=
  let ps := transform_points e gp.ps_3d
  let avg := np_average ps
  let vecs := P.get_principal_components ps
  let normal := np_cross vecs.1 vecs.2
  let coefs := P.get_plane_coefficients normal avg
  ⟨ps, avg, vecs, normal, coefs⟩

/-- The per-crop update of `add_extrinsics_information` (scene.py lines
188-200): transform every point of the crop in place, recompute
`average_point`, `crop_vector` and `crop_vector_angles`, then compute
`emerging_point` from the already-updated crop and the already-updated
ground plane `gp'`. -/
def rederive_crop (P : GeometryPrims) (e : Mat4) (gp' : GroundPlane)
    (crop : CornCrop) : CornCrop :=
  let ps := transform_points e crop.ps_3d
  let avg := np_average ps
  let cv := P.get_principal_component ps
  let angles := P.get_vector_angles cv
  let crop1 : CornCrop :=
    { crop with
        ps_3d := ps
        average_point := avg
        crop_vector := cv
        crop_vector_angles := angles }
  { crop1 with emerging_point := P.find_emerging_point crop1 gp' }

/-- The method `AgriculturalScene.add_extrinsics_information` (scene.py
lines 123-200): compute the extrinsics only when the cached field is
absent, then transform all points and recompute all derived features of the
ground plane and of every crop, the crops consuming the updated ground
plane. -/
def add_extrinsics_information (P : GeometryPrims) (scene : AgriculturalScene)
    (pos_world_body orient_world_body pos_camera_body orient_camera_body :
      List ℝ) : AgriculturalScene :=
  let e := effective_extrinsics scene pos_world_body orient_world_body
    pos_camera_body orient_camera_body
  let gp' := rederive_ground_plane P e scene.ground_plane
  { scene with
    extrinsics := some e,
    ground_plane := gp',
    crop_group := ⟨scene.crop_group.crops.map (rederive_crop P e gp')⟩ }

/-! Auxiliary lemmas about the rotation blocks and homogeneous assembly. -/

/-- Literal form of the transpose of `R_yaw`. -/
theorem R_yaw_transpose (a : ℝ) :
    (R_yaw a)ᵀ = !![Real.cos a, Real.sin a, 0;
                    -Real.sin a, Real.cos a, 0;
                    0, 0, 1] := by
  ext i j
  fin_cases i <;> fin_cases j <;> simp [R_yaw, Matrix.vecHead, Matrix.vecTail]

/-- Literal form of the transpose of `R_pitch`. -/
theorem R_pitch_transpose (a : ℝ) :
    (R_pitch a)ᵀ = !![Real.cos a, 0, -Real.sin a;
                      0, 1, 0;
                      Real.sin a, 0, Real.cos a] := by
  ext i j
  fin_cases i <;> fin_cases j <;> simp [R_pitch, Matrix.vecHead, Matrix.vecTail]

/-- Literal form of the transpose of `R_roll`. -/
theorem R_roll_transpose (a : ℝ) :
    (R_roll a)ᵀ = !![1, 0, 0;
                     0, Real.cos a, Real.sin a;
                     0, -Real.sin a, Real.cos a] := by
  ext i j
  fin_cases i <;> fin_cases j <;> simp [R_roll, Matrix.vecHead, Matrix.vecTail]

/-- The yaw block is orthogonal. -/
theorem R_yaw_mul_transpose (a : ℝ) : R_yaw a * (R_yaw a)ᵀ = 1 := by
  rw [R_yaw_transpose]
  ext i j
  fin_cases i <;> fin_cases j <;>
    simp [R_yaw, Matrix.mul_apply, Fin.sum_univ_three, Matrix.one_apply,
      Matrix.vecHead, Matrix.vecTail] <;>
    nlinarith [Real.sin_sq_add_cos_sq a]

/-- The pitch block is orthogonal. -/
theorem R_pitch_mul_transpose (a : ℝ) : R_pitch a * (R_pitch a)ᵀ = 1 := by
  rw [R_pitch_transpose]
  ext i j
  fin_cases i <;> fin_cases j <;>
    simp [R_pitch, Matrix.mul_apply, Fin.sum_univ_three, Matrix.one_apply,
      Matrix.vecHead, Matrix.vecTail] <;>
    nlinarith [Real.sin_sq_add_cos_sq a]

/-- The roll block is orthogonal. -/
theorem R_roll_mul_transpose (a : ℝ) : R_roll a * (R_roll a)ᵀ = 1 := by
  rw [R_roll_transpose]
  ext i j
  fin_cases i <;> fin_cases j <;>
    simp [R_roll, Matrix.mul_apply, Fin.sum_univ_three, Matrix.one_apply,
      Matrix.vecHead, Matrix.vecTail] <;>
    nlinarith [Real.sin_sq_add_cos_sq a]

/-- Determinant of the yaw block. -/
theorem R_yaw_det (a : ℝ) : (R_yaw a).det = 1 := by
  simp [R_yaw, Matrix.det_fin_three]
  nlinarith [Real.sin_sq_add_cos_sq a]

/-- Determinant of the pitch block. -/
theorem R_pitch_det (a : ℝ) : (R_pitch a).det = 1 := by
  simp [R_pitch, Matrix.det_fin_three]
  nlinarith [Real.sin_sq_add_cos_sq a]

/-- Determinant of the roll block. -/
theorem R_roll_det (a : ℝ) : (R_roll a).det = 1 := by
  simp [R_roll, Matrix.det_fin_three]
  nlinarith [Real.sin_sq_add_cos_sq a]

/-- Cancellation helper for chains of orthogonal factors. -/
theorem mul_cancel_left {A B X : Mat3} (h : A * B = 1) : A * (B * X) = X := by
  rw [← Matrix.mul_assoc, h, Matrix.one_mul]

/-- The composed rotation `R_yaw * R_pitch * R_roll` is orthogonal. -/
theorem rotation_mul_transpose (r0 r1 r2 : ℝ) :
    (R_yaw r2 * R_pitch r1 * R_roll r0) *
      (R_yaw r2 * R_pitch r1 * R_roll r0)ᵀ = 1 := by
  simp only [Matrix.transpose_mul, Matrix.mul_assoc]
  rw [mul_cancel_left (R_roll_mul_transpose r0),
    mul_cancel_left (R_pitch_mul_transpose r1)]
  exact R_yaw_mul_transpose r2

/-- The composed rotation has determinant `1`. -/
theorem rotation_det (r0 r1 r2 : ℝ) :
    (R_yaw r2 * R_pitch r1 * R_roll r0).det = 1 := by
  rw [Matrix.det_mul, Matrix.det_mul, R_yaw_det, R_pitch_det, R_roll_det]
  norm_num

/-- Block product of two homogeneous matrices. -/
theorem hom_matrix_mul (R S : Mat3) (t s : Point3) :
    hom_matrix R t * hom_matrix S s = hom_matrix (R * S) (R.mulVec s + t) := by
  ext i j
  fin_cases i <;> fin_cases j <;>
    simp [hom_matrix, Matrix.mul_apply, Fin.sum_univ_four, Fin.sum_univ_three,
      Matrix.mulVec, Matrix.dotProduct, Pi.add_apply]

/-- The homogeneous assembly of the identity rotation and zero translation
is the identity matrix. -/
theorem hom_matrix_one : hom_matrix 1 0 = 1 := by
  ext i j
  fin_cases i <;> fin_cases j <;>
    simp [hom_matrix, Matrix.one_apply, Matrix.vecHead, Matrix.vecTail]

/-- A homogeneous matrix with an orthogonal rotation block is a unit: its
explicit inverse is the homogeneous assembly of the transposed block. -/
theorem hom_matrix_isUnit (R : Mat3) (t : Point3) (h : R * Rᵀ = 1) :
    IsUnit (hom_matrix R t) := by
  have h' : Rᵀ * R = 1 := Matrix.mul_eq_one_comm.mp h
  refine ⟨⟨hom_matrix R t, hom_matrix Rᵀ (-(Rᵀ.mulVec t)), ?_, ?_⟩, rfl⟩
  · rw [hom_matrix_mul, h]
    have hv : R.mulVec (-(Rᵀ.mulVec t)) + t = 0 := by
      rw [Matrix.mulVec_neg, Matrix.mulVec_mulVec, h, Matrix.one_mulVec]
      exact neg_add_cancel t
    rw [hv, hom_matrix_one]
  · rw [hom_matrix_mul, h']
    have hv : Rᵀ.mulVec t + -(Rᵀ.mulVec t) = 0 := add_neg_cancel _
    rw [hv, hom_matrix_one]

/-- The matrix built by `get_transformation_matrix` is a unit. -/
theorem get_transformation_matrix_isUnit (translation rotation : List ℝ) :
    IsUnit (get_transformation_matrix translation rotation) :=
  hom_matrix_isUnit _ _
    (rotation_mul_transpose (rotation.getD 0 0) (rotation.getD 1 0)
      (rotation.getD 2 0))

/-- The upper-left 3x3 block of a 4x4 homogeneous matrix. -/
def rot_block (M : Mat4) : Mat3 :=
  Matrix.of fun i j => M i.castSucc j.castSucc

/-- The translation column of a 4x4 homogeneous matrix: the first three
entries of its last column. -/
def trans_col (M : Mat4) : Point3 :=
  fun i => M i.castSucc 3

/-- Concrete collaborator primitives used to instantiate the theorems on
concrete scenes. -/
def trivialPrims : GeometryPrims where
  get_principal_components := fun _ => (fun _ => 0, fun _ => 0)
  get_plane_coefficients := fun _ _ _ => 0
  get_principal_component := fun _ => fun _ => 0
  get_vector_angles := fun _ _ => 0
  find_emerging_point := fun _ _ => fun _ => 0
  voxel_downsample := fun _ ps => ps

/-- A concrete ground plane used to instantiate the theorems. -/
def sampleGroundPlane : GroundPlane where
  ps_3d := [![0, 0, 0], ![1, 0, 0], ![0, 1, 0]]
  average_point := ![0, 0, 0]
  ground_vectors := (![1, 0, 0], ![0, 1, 0])
  normal_vector := ![0, 0, 1]
  coeficients := ![0, 0, 1, 0]

/-- A concrete crop used to instantiate the theorems. -/
def sampleCrop : CornCrop where
  ps_3d := [![0, 0, 0], ![0, 0, 1]]
  average_point := ![0, 0, 0]
  crop_vector := ![0, 0, 1]
  crop_vector_angles := ![0, 0, 0]
  emerging_point := ![0, 0, 0]

/-- A concrete scene whose `extrinsics` is absent. -/
def sampleScene : AgriculturalScene where
  index := 0
  crop_group := ⟨[sampleCrop]⟩
  ground_plane := sampleGroundPlane
  extrinsics := none

/-- A concrete scene whose `extrinsics` is already cached (the identity). -/
def sampleSceneCached : AgriculturalScene where
  index := 0
  crop_group := ⟨[sampleCrop]⟩
  ground_plane := sampleGroundPlane
  extrinsics := some 1

/-! Claim theorems. -/

/-- Claim C3: for every translation list and rotation list (entries 0, 1, 2
consumed positionally as roll, pitch, yaw), `get_transformation_matrix`
returns the homogeneous assembly of `R_yaw * R_pitch * R_roll` with the
translation column; its bottom row is exactly `[0, 0, 0, 1]`, its
upper-left 3x3 block is the composed rotation, and that block is
orthonormal with determinant 1 (here proved for every input, valid rotation
or not). -/
theorem C3_transformation_matrix_shape (translation rotation : List ℝ) :
    get_transformation_matrix translation rotation =
      hom_matrix
        (R_yaw (rotation.getD 2 0) * R_pitch (rotation.getD 1 0) *
          R_roll (rotation.getD 0 0))
        ![translation.getD 0 0, translation.getD 1 0, translation.getD 2 0] ∧
    (∀ j : Fin 4, get_transformation_matrix translation rotation 3 j =
      if j = 3 then 1 else 0) ∧
    rot_block (get_transformation_matrix translation rotation) =
      R_yaw (rotation.getD 2 0) * R_pitch (rotation.getD 1 0) *
        R_roll (rotation.getD 0 0) ∧
    (R_yaw (rotation.getD 2 0) * R_pitch (rotation.getD 1 0) *
        R_roll (rotation.getD 0 0)) *
      (R_yaw (rotation.getD 2 0) * R_pitch (rotation.getD 1 0) *
        R_roll (rotation.getD 0 0))ᵀ = 1 ∧
    (R_yaw (rotation.getD 2 0) * R_pitch (rotation.getD 1 0) *
      R_roll (rotation.getD 0 0)).det = 1 := by
  refine ⟨rfl, ?_, ?_, rotation_mul_transpose _ _ _, rotation_det _ _ _⟩
  · intro j
    fin_cases j <;> simp [get_transformation_matrix, hom_matrix]
  · ext i j
    fin_cases i <;> fin_cases j <;>
      simp [rot_block, get_transformation_matrix, hom_matrix,
        show ((2 : Fin 3).castSucc : Fin 4) = 2 from rfl,
        show ((1 : Fin 3).castSucc : Fin 4) = 1 from rfl,
        show ((0 : Fin 3).castSucc : Fin 4) = 0 from rfl]

/-- Claim C10: `get_transformation_matrix` reads only the first three
entries of the rotation list (a fourth quaternion-style component is never
read): two rotation lists agreeing on indices 0, 1, 2 give equal matrices. -/
theorem C10_rotation_reads_three_entries (translation rot1 rot2 : List ℝ)
    (h0 : rot1.getD 0 0 = rot2.getD 0 0) (h1 : rot1.getD 1 0 = rot2.getD 1 0)
    (h2 : rot1.getD 2 0 = rot2.getD 2 0) :
    get_transformation_matrix translation rot1 =
      get_transformation_matrix translation rot2 := by
  unfold get_transformation_matrix
  rw [h0, h1, h2]

/-- Witness for C10 at rotation lists differing only in their fourth
component. -/
theorem C10_rotation_reads_three_entries_witness :
    ([0, 0, 0, 5] : List ℝ).getD 0 0 = ([0, 0, 0, 7] : List ℝ).getD 0 0 ∧
    ([0, 0, 0, 5] : List ℝ).getD 1 0 = ([0, 0, 0, 7] : List ℝ).getD 1 0 ∧
    ([0, 0, 0, 5] : List ℝ).getD 2 0 = ([0, 0, 0, 7] : List ℝ).getD 2 0 ∧
    get_transformation_matrix [1, 2, 3] [0, 0, 0, 5] =
      get_transformation_matrix [1, 2, 3] [0, 0, 0, 7] :=
  ⟨rfl, rfl, rfl,
    C10_rotation_reads_three_entries [1, 2, 3] [0, 0, 0, 5] [0, 0, 0, 7]
      rfl rfl rfl⟩

/-- Claim C5: the point transformer divides the first three components of
`M * [p; 1]` by its fourth component; when the bottom row of `M` is
`[0, 0, 0, 1]` the fourth component is 1 and the result is the affine
action of the rotation block and translation column, `R * p + t`. -/
theorem C5_point_transformer (p : Point3) (M : Mat4)
    (hrow : ∀ j : Fin 4, M 3 j = if j = 3 then 1 else 0) :
    (∀ i : Fin 3, apply_extrinsics_to_3D_vector p M i =
      M.mulVec (np_append_one p) i.castSucc / M.mulVec (np_append_one p) 3) ∧
    M.mulVec (np_append_one p) 3 = 1 ∧
    (∀ i : Fin 3, apply_extrinsics_to_3D_vector p M i =
      (rot_block M).mulVec p i + trans_col M i) := by
  have hlast : M.mulVec (np_append_one p) 3 = 1 := by
    simp [Matrix.mulVec, Matrix.dotProduct, Fin.sum_univ_four, np_append_one,
      hrow 0, hrow 1, hrow 2, hrow 3]
  refine ⟨fun i => rfl, hlast, fun i => ?_⟩
  show M.mulVec (np_append_one p) i.castSucc / M.mulVec (np_append_one p) 3 = _
  rw [hlast, div_one]
  simp [Matrix.mulVec, Matrix.dotProduct, Fin.sum_univ_four, Fin.sum_univ_three,
    np_append_one, rot_block, trans_col,
    show ((2 : Fin 3).castSucc : Fin 4) = 2 from rfl,
    show ((1 : Fin 3).castSucc : Fin 4) = 1 from rfl,
    show ((0 : Fin 3).castSucc : Fin 4) = 0 from rfl]

/-- Witness for C5 at the identity transform and a concrete point. -/
theorem C5_point_transformer_witness :
    (∀ j : Fin 4, (1 : Mat4) 3 j = if j = 3 then 1 else 0) ∧
    ((∀ i : Fin 3, apply_extrinsics_to_3D_vector ![1, 2, 3] (1 : Mat4) i =
      (1 : Mat4).mulVec (np_append_one ![1, 2, 3]) i.castSucc /
        (1 : Mat4).mulVec (np_append_one ![1, 2, 3]) 3) ∧
    (1 : Mat4).mulVec (np_append_one ![1, 2, 3]) 3 = 1 ∧
    (∀ i : Fin 3, apply_extrinsics_to_3D_vector ![1, 2, 3] (1 : Mat4) i =
      (rot_block (1 : Mat4)).mulVec ![1, 2, 3] i + trans_col (1 : Mat4) i)) :=
  have hrow : ∀ j : Fin 4, (1 : Mat4) 3 j = if j = 3 then 1 else 0 :=
    fun j => by fin_cases j <;> simp [Matrix.one_apply]
  ⟨hrow, C5_point_transformer ![1, 2, 3] (1 : Mat4) hrow⟩

/-- Claim C7: the homogeneous division in the point transformer is not
guarded: at the zero transform the fourth homogeneous component is 0, the
call still returns a value (here, under the real-division-by-zero
convention, the zero vector, where numpy floats would carry NaN or
infinity), and no error is raised. -/
theorem C7_unguarded_division :
    (0 : Mat4).mulVec (np_append_one ![0, 0, 0]) 3 = 0 ∧
    apply_extrinsics_to_3D_vector ![0, 0, 0] (0 : Mat4) =
      (fun i : Fin 3 => (0 : Mat4).mulVec (np_append_one ![0, 0, 0]) i.castSucc
        / (0 : ℝ)) ∧
    apply_extrinsics_to_3D_vector ![0, 0, 0] (0 : Mat4) = fun _ => (0 : ℝ) := by
  have hz : (0 : Mat4).mulVec (np_append_one ![0, 0, 0]) = fun _ => 0 := by
    funext j
    simp [Matrix.mulVec, Matrix.dotProduct]
  refine ⟨by rw [hz], ?_, ?_⟩
  · funext i
    show (0 : Mat4).mulVec (np_append_one ![0, 0, 0]) i.castSucc /
        (0 : Mat4).mulVec (np_append_one ![0, 0, 0]) 3 = _
    rw [hz]
  · funext i
    show (0 : Mat4).mulVec (np_append_one ![0, 0, 0]) i.castSucc /
        (0 : Mat4).mulVec (np_append_one ![0, 0, 0]) 3 = _
    rw [hz]
    simp

/-- Claim C4: on a scene with no cached extrinsics and valid pose pairs,
`add_extrinsics_information` sets `extrinsics` to
`T_world_body * inv(T_camera_body)`; the camera-body matrix is genuinely
invertible (here proved for every pose input: its rotation block is always
orthonormal), so the modelled inverse is a true two-sided inverse as
`np.linalg.inv` computes. -/
theorem C4_lazy_extrinsics_computation (P : GeometryPrims)
    (scene : AgriculturalScene)
    (pos_world_body orient_world_body pos_camera_body orient_camera_body :
      List ℝ)
    (h : scene.extrinsics = none) :
    (add_extrinsics_information P scene pos_world_body orient_world_body
        pos_camera_body orient_camera_body).extrinsics =
      some (get_transformation_matrix pos_world_body orient_world_body *
        (get_transformation_matrix pos_camera_body orient_camera_body)⁻¹) ∧
    get_transformation_matrix pos_camera_body orient_camera_body *
      (get_transformation_matrix pos_camera_body orient_camera_body)⁻¹ = 1 := by
  constructor
  · simp [add_extrinsics_information, effective_extrinsics, h,
      computed_extrinsics]
  · exact Matrix.mul_nonsing_inv _
      ((Matrix.isUnit_iff_isUnit_det _).mp (get_transformation_matrix_isUnit _ _))

/-- Witness for C4 on a concrete scene with no cached extrinsics. -/
theorem C4_lazy_extrinsics_computation_witness :
    sampleScene.extrinsics = none ∧
    ((add_extrinsics_information trivialPrims sampleScene [0, 0, 0] [0, 0, 0]
        [0, 0, 0] [0, 0, 0]).extrinsics =
      some (get_transformation_matrix [0, 0, 0] [0, 0, 0] *
        (get_transformation_matrix [0, 0, 0] [0, 0, 0])⁻¹) ∧
    get_transformation_matrix [0, 0, 0] [0, 0, 0] *
      (get_transformation_matrix [0, 0, 0] [0, 0, 0])⁻¹ = 1) :=
  ⟨rfl, C4_lazy_extrinsics_computation trivialPrims sampleScene
    [0, 0, 0] [0, 0, 0] [0, 0, 0] [0, 0, 0] rfl⟩

/-- Claim C1: on a scene whose `extrinsics` is already set, any call to
`add_extrinsics_information` — the pose arguments are arbitrary and do not
appear in the conclusion — leaves `extrinsics` at its cached value, while
the point transformation (under the cached matrix) and the feature
re-derivation still run on the ground plane and on every crop. -/
theorem C1_cached_extrinsics_immutable (P : GeometryPrims)
    (scene : AgriculturalScene) (e : Mat4)
    (pos_world_body orient_world_body pos_camera_body orient_camera_body :
      List ℝ)
    (h : scene.extrinsics = some e) :
    (add_extrinsics_information P scene pos_world_body orient_world_body
        pos_camera_body orient_camera_body).extrinsics = some e ∧
    (add_extrinsics_information P scene pos_world_body orient_world_body
        pos_camera_body orient_camera_body).ground_plane =
      rederive_ground_plane P e scene.ground_plane ∧
    (add_extrinsics_information P scene pos_world_body orient_world_body
        pos_camera_body orient_camera_body).ground_plane.ps_3d =
      transform_points e scene.ground_plane.ps_3d ∧
    (add_extrinsics_information P scene pos_world_body orient_world_body
        pos_camera_body orient_camera_body).crop_group.crops =
      scene.crop_group.crops.map
        (rederive_crop P e (rederive_ground_plane P e scene.ground_plane)) := by
  have he : effective_extrinsics scene pos_world_body orient_world_body
      pos_camera_body orient_camera_body = e := by
    simp [effective_extrinsics, h]
  refine ⟨?_, ?_, ?_, ?_⟩ <;>
    simp [add_extrinsics_information, he, rederive_ground_plane,
      transform_points]

/-- Witness for C1 on a concrete scene with a cached identity extrinsics
and fresh pose arguments. -/
theorem C1_cached_extrinsics_immutable_witness :
    sampleSceneCached.extrinsics = some 1 ∧
    ((add_extrinsics_information trivialPrims sampleSceneCached [4, 5, 6]
        [1, 1, 1, 1] [7, 8, 9] [2, 2, 2, 2]).extrinsics = some 1 ∧
    (add_extrinsics_information trivialPrims sampleSceneCached [4, 5, 6]
        [1, 1, 1, 1] [7, 8, 9] [2, 2, 2, 2]).ground_plane =
      rederive_ground_plane trivialPrims 1 sampleSceneCached.ground_plane ∧
    (add_extrinsics_information trivialPrims sampleSceneCached [4, 5, 6]
        [1, 1, 1, 1] [7, 8, 9] [2, 2, 2, 2]).ground_plane.ps_3d =
      transform_points 1 sampleSceneCached.ground_plane.ps_3d ∧
    (add_extrinsics_information trivialPrims sampleSceneCached [4, 5, 6]
        [1, 1, 1, 1] [7, 8, 9] [2, 2, 2, 2]).crop_group.crops =
      sampleSceneCached.crop_group.crops.map
        (rederive_crop trivialPrims 1
          (rederive_ground_plane trivialPrims 1
            sampleSceneCached.ground_plane))) :=
  ⟨rfl, C1_cached_extrinsics_immutable trivialPrims sampleSceneCached 1
    [4, 5, 6] [1, 1, 1, 1] [7, 8, 9] [2, 2, 2, 2] rfl⟩

/-- Claim C2: after every call to `add_extrinsics_information`, whichever
branch was taken, every ground-plane point and every point of every crop
has been replaced by its image under the (effective) extrinsics transform,
and the derived features of the ground plane and of every crop have been
recomputed from the transformed points. -/
theorem C2_postcondition_all_points_transformed (P : GeometryPrims)
    (scene : AgriculturalScene)
    (pos_world_body orient_world_body pos_camera_body orient_camera_body :
      List ℝ) :
    (add_extrinsics_information P scene pos_world_body orient_world_body
        pos_camera_body orient_camera_body).ground_plane.ps_3d =
      scene.ground_plane.ps_3d.map
        (fun p => apply_extrinsics_to_3D_vector p
          (effective_extrinsics scene pos_world_body orient_world_body
            pos_camera_body orient_camera_body)) ∧
    (add_extrinsics_information P scene pos_world_body orient_world_body
        pos_camera_body orient_camera_body).ground_plane =
      rederive_ground_plane P
        (effective_extrinsics scene pos_world_body orient_world_body
          pos_camera_body orient_camera_body) scene.ground_plane ∧
    (add_extrinsics_information P scene pos_world_body orient_world_body
        pos_camera_body orient_camera_body).crop_group.crops =
      scene.crop_group.crops.map
        (rederive_crop P
          (effective_extrinsics scene pos_world_body orient_world_body
            pos_camera_body orient_camera_body)
          (rederive_ground_plane P
            (effective_extrinsics scene pos_world_body orient_world_body
              pos_camera_body orient_camera_body) scene.ground_plane)) ∧
    (∀ (e : Mat4) (gp : GroundPlane),
      (rederive_ground_plane P e gp).ps_3d = transform_points e gp.ps_3d ∧
      (rederive_ground_plane P e gp).average_point =
        np_average (transform_points e gp.ps_3d) ∧
      (rederive_ground_plane P e gp).ground_vectors =
        P.get_principal_components (transform_points e gp.ps_3d) ∧
      (rederive_ground_plane P e gp).normal_vector =
        np_cross (P.get_principal_components (transform_points e gp.ps_3d)).1
          (P.get_principal_components (transform_points e gp.ps_3d)).2 ∧
      (rederive_ground_plane P e gp).coeficients =
        P.get_plane_coefficients
          (np_cross (P.get_principal_components (transform_points e gp.ps_3d)).1
            (P.get_principal_components (transform_points e gp.ps_3d)).2)
          (np_average (transform_points e gp.ps_3d))) ∧
    (∀ (e : Mat4) (gp' : GroundPlane) (c : CornCrop),
      (rederive_crop P e gp' c).ps_3d = transform_points e c.ps_3d ∧
      (rederive_crop P e gp' c).average_point =
        np_average (transform_points e c.ps_3d) ∧
      (rederive_crop P e gp' c).crop_vector =
        P.get_principal_component (transform_points e c.ps_3d) ∧
      (rederive_crop P e gp' c).crop_vector_angles =
        P.get_vector_angles
          (P.get_principal_component (transform_points e c.ps_3d))) :=
  ⟨rfl, rfl, rfl, fun _ _ => ⟨rfl, rfl, rfl, rfl, rfl⟩,
    fun _ _ _ => ⟨rfl, rfl, rfl, rfl⟩⟩

/-- Claim C6: inside one `add_extrinsics_information` call the ground
plane's derived fields are recomputed in dependency order — the average
point is the mean of the transformed point set, the principal directions
come from the same transformed set, the normal vector is the cross product
of the two just-computed principal directions, the plane coefficients are
built from the just-computed normal and average — and every crop's emerging
point is computed from the crop updated in this call and from the fully
re-derived ground plane. -/
theorem C6_rederivation_order (P : GeometryPrims) (scene : AgriculturalScene)
    (pos_world_body orient_world_body pos_camera_body orient_camera_body :
      List ℝ) :
    (add_extrinsics_information P scene pos_world_body orient_world_body
        pos_camera_body orient_camera_body).ground_plane.average_point =
      np_average
        ((add_extrinsics_information P scene pos_world_body orient_world_body
          pos_camera_body orient_camera_body).ground_plane.ps_3d) ∧
    (add_extrinsics_information P scene pos_world_body orient_world_body
        pos_camera_body orient_camera_body).ground_plane.ground_vectors =
      P.get_principal_components
        ((add_extrinsics_information P scene pos_world_body orient_world_body
          pos_camera_body orient_camera_body).ground_plane.ps_3d) ∧
    (add_extrinsics_information P scene pos_world_body orient_world_body
        pos_camera_body orient_camera_body).ground_plane.normal_vector =
      np_cross
        ((add_extrinsics_information P scene pos_world_body orient_world_body
          pos_camera_body orient_camera_body).ground_plane.ground_vectors).1
        ((add_extrinsics_information P scene pos_world_body orient_world_body
          pos_camera_body orient_camera_body).ground_plane.ground_vectors).2 ∧
    (add_extrinsics_information P scene pos_world_body orient_world_body
        pos_camera_body orient_camera_body).ground_plane.coeficients =
      P.get_plane_coefficients
        ((add_extrinsics_information P scene pos_world_body orient_world_body
          pos_camera_body orient_camera_body).ground_plane.normal_vector)
        ((add_extrinsics_information P scene pos_world_body orient_world_body
          pos_camera_body orient_camera_body).ground_plane.average_point) ∧
    (add_extrinsics_information P scene pos_world_body orient_world_body
        pos_camera_body orient_camera_body).crop_group.crops =
      scene.crop_group.crops.map
        (rederive_crop P
          (effective_extrinsics scene pos_world_body orient_world_body
            pos_camera_body orient_camera_body)
          ((add_extrinsics_information P scene pos_world_body orient_world_body
            pos_camera_body orient_camera_body).ground_plane)) ∧
    (∀ (e : Mat4) (gp' : GroundPlane) (c : CornCrop),
      (rederive_crop P e gp' c).emerging_point =
        P.find_emerging_point
          { c with
              ps_3d := transform_points e c.ps_3d
              average_point := np_average (transform_points e c.ps_3d)
              crop_vector :=
                P.get_principal_component (transform_points e c.ps_3d)
              crop_vector_angles :=
                P.get_vector_angles
                  (P.get_principal_component (transform_points e c.ps_3d)) }
          gp') :=
  ⟨rfl, rfl, rfl, rfl, rfl, fun _ _ _ => rfl⟩

/-- Claim C9: `downsample` delegates to the crop group exactly when
`crop_voxel_size` is provided and to the ground plane exactly when
`ground_plane_voxel_size` is provided, leaves the corresponding point set
untouched when an argument is `none`, and never triggers recomputation of
any derived feature: the ground plane's four derived fields, every crop's
derived fields, and the cached extrinsics all keep their prior values. -/
theorem C9_downsample_pure_delegation (P : GeometryPrims)
    (scene : AgriculturalScene)
    (crop_voxel_size ground_plane_voxel_size : Option ℝ) :
    (downsample P scene crop_voxel_size ground_plane_voxel_size).crop_group =
      (match crop_voxel_size with
        | some s => crop_group_downsample P s scene.crop_group
        | none => scene.crop_group) ∧
    (downsample P scene crop_voxel_size ground_plane_voxel_size).ground_plane =
      (match ground_plane_voxel_size with
        | some s => ground_plane_downsample P s scene.ground_plane
        | none => scene.ground_plane) ∧
    (downsample P scene crop_voxel_size ground_plane_voxel_size).extrinsics =
      scene.extrinsics ∧
    (downsample P scene crop_voxel_size
        ground_plane_voxel_size).ground_plane.average_point =
      scene.ground_plane.average_point ∧
    (downsample P scene crop_voxel_size
        ground_plane_voxel_size).ground_plane.ground_vectors =
      scene.ground_plane.ground_vectors ∧
    (downsample P scene crop_voxel_size
        ground_plane_voxel_size).ground_plane.normal_vector =
      scene.ground_plane.normal_vector ∧
    (downsample P scene crop_voxel_size
        ground_plane_voxel_size).ground_plane.coeficients =
      scene.ground_plane.coeficients ∧
    (downsample P scene crop_voxel_size
        ground_plane_voxel_size).crop_group.crops.map
        (fun c => (c.average_point, c.crop_vector, c.crop_vector_angles,
          c.emerging_point)) =
      scene.crop_group.crops.map
        (fun c => (c.average_point, c.crop_vector, c.crop_vector_angles,
          c.emerging_point)) := by
  refine ⟨rfl, rfl, rfl, ?_, ?_, ?_, ?_, ?_⟩ <;>
    cases crop_voxel_size <;> cases ground_plane_voxel_size <;>
      simp [downsample, ground_plane_downsample, crop_group_downsample,
        List.map_map, Function.comp]

/-- Modelled from the spec: `GroundPlane._get_principal_components` with its
degeneracy behaviour (`features_3d/ground_plane.py` is not under the
sources). Spec sections 7 and 8: a point set with fewer than 2 points must
raise a numerical-degeneracy error from feature recomputation; otherwise
the external principal-component primitive is consulted. -/
def checked_principal_components (P : GeometryPrims) (ps : List Point3) :
    Except String (Point3 × Point3) :=
  if ps.length < 2 then
    Except.error "numerical degeneracy: fewer than 2 points"
  else Except.ok (P.get_principal_components ps)

/-- Modelled from the spec: `CornCrop._get_principal_component` with its
degeneracy behaviour (`features_3d/crop.py` is not under the sources), as
for `checked_principal_components`. -/
def checked_principal_component (P : GeometryPrims) (ps : List Point3) :
    Except String Point3 :=
  if ps.length < 2 then
    Except.error "numerical degeneracy: fewer than 2 points"
  else Except.ok (P.get_principal_component ps)

/-- The per-crop loop of `add_extrinsics_information` (scene.py lines
188-200) under the degeneracy-raising collaborators: crops are processed in
order and the first error aborts the call, as a Python exception would. -/
def rederive_crops_checked (P : GeometryPrims) (e : Mat4) (gp' : GroundPlane) :
    List CornCrop → Except String (List CornCrop)
  | [] => Except.ok []
  | c :: cs =>
    let ps := transform_points e c.ps_3d
    match checked_principal_component P ps with
    | Except.error msg => Except.error msg
    | Except.ok cv =>
      let crop1 : CornCrop :=
        { c with
            ps_3d := ps
            average_point := np_average ps
            crop_vector := cv
            crop_vector_angles := P.get_vector_angles cv }
      let crop2 : CornCrop :=
        { crop1 with emerging_point := P.find_emerging_point crop1 gp' }
      match rederive_crops_checked P e gp' cs with
      | Except.error msg => Except.error msg
      | Except.ok rest => Except.ok (crop2 :: rest)

/-- The whole of `add_extrinsics_information` under the degeneracy-raising
collaborators (the orchestration is that of scene.py lines 154-200; only
the two principal-component primitives are replaced by their checked,
spec-modelled versions). -/
def add_extrinsics_information_checked (P : GeometryPrims)
    (scene : AgriculturalScene)
    (pos_world_body orient_world_body pos_camera_body orient_camera_body :
      List ℝ) : Except String AgriculturalScene :=
  let e := effective_extrinsics scene pos_world_body orient_world_body
    pos_camera_body orient_camera_body
  let ps := transform_points e scene.ground_plane.ps_3d
  match checked_principal_components P ps with
  | Except.error msg => Except.error msg
  | Except.ok vecs =>
    let gp' : GroundPlane :=
      ⟨ps, np_average ps, vecs, np_cross vecs.1 vecs.2,
        P.get_plane_coefficients (np_cross vecs.1 vecs.2) (np_average ps)⟩
    match rederive_crops_checked P e gp' scene.crop_group.crops with
    | Except.error msg => Except.error msg
    | Except.ok crops' =>
      Except.ok { scene with
        extrinsics := some e
        ground_plane := gp'
        crop_group := ⟨crops'⟩ }

/-- A crop whose point set is degenerate makes the checked crop loop
error out. -/
theorem rederive_crops_checked_error (P : GeometryPrims) (e : Mat4)
    (gp' : GroundPlane) (cs : List CornCrop) (c : CornCrop) (hc : c ∈ cs)
    (hlen : c.ps_3d.length < 2) :
    ∃ msg, rederive_crops_checked P e gp' cs = Except.error msg := by
  induction cs with
  | nil => exact absurd hc (List.not_mem_nil c)
  | cons a as ih =>
    rcases List.mem_cons.mp hc with rfl | hmem
    · have hps : (transform_points e c.ps_3d).length < 2 := by
        simpa [transform_points] using hlen
      refine ⟨"numerical degeneracy: fewer than 2 points", ?_⟩
      simp [rederive_crops_checked, checked_principal_component, hps]
    · obtain ⟨msg, hmsg⟩ := ih hmem
      by_cases ha : (transform_points e a.ps_3d).length < 2
      · exact ⟨"numerical degeneracy: fewer than 2 points",
          by simp [rederive_crops_checked, checked_principal_component, ha]⟩
      · exact ⟨msg,
          by simp [rederive_crops_checked, checked_principal_component, ha,
            hmsg]⟩

/-- When the ground plane's point set passes the degeneracy check, the
checked call reduces to the crop loop over the re-derived ground plane. -/
theorem add_checked_of_ground_ok (P : GeometryPrims)
    (scene : AgriculturalScene)
    (pos_world_body orient_world_body pos_camera_body orient_camera_body :
      List ℝ)
    (hg : ¬ scene.ground_plane.ps_3d.length < 2) :
    add_extrinsics_information_checked P scene pos_world_body
      orient_world_body pos_camera_body orient_camera_body =
    (match rederive_crops_checked P
        (effective_extrinsics scene pos_world_body orient_world_body
          pos_camera_body orient_camera_body)
        (rederive_ground_plane P
          (effective_extrinsics scene pos_world_body orient_world_body
            pos_camera_body orient_camera_body) scene.ground_plane)
        scene.crop_group.crops with
      | Except.error msg => Except.error msg
      | Except.ok crops' =>
        Except.ok { scene with
          extrinsics := some (effective_extrinsics scene pos_world_body
            orient_world_body pos_camera_body orient_camera_body)
          ground_plane := rederive_ground_plane P
            (effective_extrinsics scene pos_world_body orient_world_body
              pos_camera_body orient_camera_body) scene.ground_plane
          crop_group := ⟨crops'⟩ }) := by
  have hps : ¬ (transform_points
      (effective_extrinsics scene pos_world_body orient_world_body
        pos_camera_body orient_camera_body)
      scene.ground_plane.ps_3d).length < 2 := by
    simpa [transform_points] using hg
  simp [add_extrinsics_information_checked, checked_principal_components,
    hps, rederive_ground_plane]

/-- Claim C8: when the ground plane's point set, or some crop's point set,
has fewer than 2 points, the feature recomputation inside
`add_extrinsics_information` raises a numerical-degeneracy error rather
than proceeding with undefined principal directions. -/
theorem C8_degenerate_point_set_raises (P : GeometryPrims)
    (scene : AgriculturalScene)
    (pos_world_body orient_world_body pos_camera_body orient_camera_body :
      List ℝ)
    (h : scene.ground_plane.ps_3d.length < 2 ∨
      ∃ c ∈ scene.crop_group.crops, c.ps_3d.length < 2) :
    ∃ msg, add_extrinsics_information_checked P scene pos_world_body
      orient_world_body pos_camera_body orient_camera_body =
        Except.error msg := by
  by_cases hg : scene.ground_plane.ps_3d.length < 2
  · have hps : (transform_points
        (effective_extrinsics scene pos_world_body orient_world_body
          pos_camera_body orient_camera_body)
        scene.ground_plane.ps_3d).length < 2 := by
      simpa [transform_points] using hg
    exact ⟨"numerical degeneracy: fewer than 2 points",
      by simp [add_extrinsics_information_checked,
        checked_principal_components, hps]⟩
  · rcases h with h | ⟨c, hc, hlen⟩
    · exact absurd h hg
    · obtain ⟨msg, hmsg⟩ := rederive_crops_checked_error P
        (effective_extrinsics scene pos_world_body orient_world_body
          pos_camera_body orient_camera_body)
        (rederive_ground_plane P
          (effective_extrinsics scene pos_world_body orient_world_body
            pos_camera_body orient_camera_body) scene.ground_plane)
        scene.crop_group.crops c hc hlen
      refine ⟨msg, ?_⟩
      rw [add_checked_of_ground_ok P scene pos_world_body orient_world_body
        pos_camera_body orient_camera_body hg, hmsg]

/-- A concrete scene whose ground plane has a single point. -/
def degenerateScene : AgriculturalScene where
  index := 0
  crop_group := ⟨[sampleCrop]⟩
  ground_plane :=
    ⟨[![0, 0, 0]], ![0, 0, 0], (![1, 0, 0], ![0, 1, 0]), ![0, 0, 1],
      ![0, 0, 1, 0]⟩
  extrinsics := none

/-- Witness for C8 on a concrete degenerate scene. -/
theorem C8_degenerate_point_set_raises_witness :
    (degenerateScene.ground_plane.ps_3d.length < 2 ∨
      ∃ c ∈ degenerateScene.crop_group.crops, c.ps_3d.length < 2) ∧
    ∃ msg, add_extrinsics_information_checked trivialPrims degenerateScene
      [0, 0, 0] [0, 0, 0] [0, 0, 0] [0, 0, 0] = Except.error msg :=
  have hdeg : degenerateScene.ground_plane.ps_3d.length < 2 := by
    simp [degenerateScene]
  ⟨Or.inl hdeg,
    C8_degenerate_point_set_raises trivialPrims degenerateScene
      [0, 0, 0] [0, 0, 0] [0, 0, 0] [0, 0, 0] (Or.inl hdeg)⟩

end

end TsScene
